import Mathlib

/-!
Verification of the Credit-Risk-Analytics scoring core (src/financial_data.py),
shallowly embedded over exact rationals. Python `None` becomes `Option.none`,
dict lookups become `Option` fields, and the tuple results of the two pure
functions become explicit product / structure types.
-/

namespace CreditRisk

/-- Input to `normalize_units`: a raw value is either numerically convertible
(`float(value)` succeeds, carrying the converted rational), one on which
`float(value)` raises `TypeError` or `ValueError` (the two exceptions the
handler at financial_data.py line 25 catches), or one on which `float(value)`
raises some other exception — `OverflowError` for a Python int beyond float
range, such as 10^400 — which that handler does not catch. -/
inductive RawValue
  | num (q : ℚ)
  | invalid
  | overflow
deriving DecidableEq, Repr

/-- Embedding of `normalize_units(value, scale)` (financial_data.py lines 9-26):
`None` input gives `None`; an input whose conversion raises `TypeError` or
`ValueError` hits the `except (TypeError, ValueError)` branch and gives `None`;
an input whose conversion raises `OverflowError` is not caught, and the
exception propagates to the caller — modelled by `Except.error`; otherwise the
value is divided by 1e6 when `scale == "M"` and by 1e9 otherwise. -/
def normalize_units (value : Option RawValue) (scale : String) :
    Except String (Option ℚ) :=
  match value with
  | none => Except.ok none
  | some RawValue.invalid => Except.ok none
  | some RawValue.overflow => Except.error "OverflowError"
  | some (RawValue.num q) =>
      let divisor : ℚ := if scale = "M" then 1000000 else 1000000000
      Except.ok (some (q / divisor))

/-- A column label of the balance-sheet DataFrame: either a date that the
pandas conversion parses (carried as an integer day count together with its
`strftime` rendering), or one whose conversion raises. -/
inductive DateCell
  | valid (day : Int) (date_str : String)
  | unparseable
deriving DecidableEq, Repr

/-- The balance-sheet DataFrame, reduced to what `check_data_freshness`
inspects: its list of column labels. The empty list models `DataFrame.empty`. -/
structure BalanceSheet where
  columns : List DateCell
deriving DecidableEq, Repr

/-- The staleness warning built at financial_data.py line 59. -/
def stale_warning (date_str : String) : String :=
  "⚠️ STALE DATA: Most recent filing is from " ++ date_str ++
    " (> 18 months old). Credit risk assessment may be unreliable."

/-- Embedding of `check_data_freshness(balance_sheet)` (financial_data.py lines
29-64). Time is measured in days; `now` stands for `datetime.now()` and the
threshold is `now - 540` days (`timedelta(days=18*30)`). A parse failure of the
first column label lands in the `except` branch. -/
def check_data_freshness (balance_sheet : Option BalanceSheet) (now : Int) :
    Bool × Option String × Option String :=
  match balance_sheet with
  | none => (true, none, some "No balance sheet data available.")
  | some bs =>
    match bs.columns with
    | [] => (true, none, some "No balance sheet data available.")
    | c :: _ =>
      match c with
      | DateCell.unparseable =>
          (true, none, some "Could not determine data freshness: parse failure")
      | DateCell.valid day date_str =>
          let is_stale : Bool := decide (day < now - 540)
          (is_stale, some date_str,
            if is_stale then some (stale_warning date_str) else none)

/-- `NON_MANUFACTURING_SECTORS` (financial_data.py lines 71-79). -/
def NON_MANUFACTURING_SECTORS : List String :=
  ["Technology", "Consumer Cyclical", "Consumer Defensive",
   "Communication Services", "Financial Services", "Healthcare", "Real Estate"]

/-- The dict produced by `get_financial_data`, reduced to the keys that
`calculate_altman_z_score` reads. `sector` is `_metadata["sector"]` (absent
metadata or sector modelled as `none`, read back with default "Unknown");
every metric key is nullable. -/
structure FinancialData where
  sector : Option String
  total_assets : Option ℚ
  working_capital : Option ℚ
  retained_earnings : Option ℚ
  ebit : Option ℚ
  total_liabilities : Option ℚ
  market_value_equity : Option ℚ
  book_value_equity : Option ℚ
  total_revenue : Option ℚ
deriving DecidableEq, Repr

/-- The tuple `(z_score, risk_category, formula_used)` returned by
`calculate_altman_z_score`. -/
structure ScoreResult where
  z_score : Option ℚ
  risk_category : String
  formula_used : Option String
deriving DecidableEq, Repr

/-- The sector test `sector in NON_MANUFACTURING_SECTORS` performed at
financial_data.py line 194, on the sector read with default "Unknown". -/
def selects_z_double_prime (d : FinancialData) : Bool :=
  NON_MANUFACTURING_SECTORS.contains (d.sector.getD "Unknown")

/-- Embedding of `calculate_altman_z_score(data)` (financial_data.py lines
156-244). A `None` (or empty, hence falsy) input dict returns "No Data";
the required-field checks run in source order, short-circuiting; the sector
chooses between the Z-double-prime and the standard Z formula, each with its
own thresholds. Arithmetic is exact rational arithmetic, so the `except`
branch of the source (unreachable once the zero denominators are excluded by
the checks) has no counterpart. -/
def calculate_altman_z_score (data : Option FinancialData) : ScoreResult :=
  match data with
  | none => ⟨none, "No Data", none⟩
  | some d =>
    let sector := d.sector.getD "Unknown"
    match d.total_assets with
    | none => ⟨none, "Missing Total Assets", none⟩
    | some total_assets =>
      if total_assets = 0 then ⟨none, "Missing Total Assets", none⟩
      else
        match d.working_capital with
        | none => ⟨none, "Missing Working Capital", none⟩
        | some working_capital =>
          match d.retained_earnings with
          | none => ⟨none, "Missing Retained Earnings", none⟩
          | some retained_earnings =>
            match d.ebit with
            | none => ⟨none, "Missing EBIT", none⟩
            | some ebit =>
              let A := working_capital / total_assets
              let B := retained_earnings / total_assets
              let C := ebit / total_assets
              if NON_MANUFACTURING_SECTORS.contains sector then
                match d.book_value_equity, d.total_liabilities with
                | some bve, some total_liabilities =>
                  if total_liabilities = 0 then
                    ⟨none, "Missing Book Value of Equity or Liabilities", none⟩
                  else
                    let D := bve / total_liabilities
                    let z_score := 6.56 * A + 3.26 * B + 6.72 * C + 1.05 * D
                    ⟨some z_score,
                      if z_score > 2.6 then "Safe Zone"
                      else if z_score > 1.1 then "Grey Zone"
                      else "Distress Zone",
                      some "Z\x27\x27 (Non-Manufacturing)"⟩
                | _, _ => ⟨none, "Missing Book Value of Equity or Liabilities", none⟩
              else
                match d.market_value_equity, d.total_liabilities with
                | some mve, some total_liabilities =>
                  if total_liabilities = 0 then
                    ⟨none, "Missing MVE or Liabilities", none⟩
                  else
                    match d.total_revenue with
                    | none => ⟨none, "Missing Sales", none⟩
                    | some sales =>
                      let D := mve / total_liabilities
                      let E := sales / total_assets
                      let z_score := 1.2 * A + 1.4 * B + 3.3 * C + 0.6 * D + 1.0 * E
                      ⟨some z_score,
                        if z_score > 3.0 then "Safe Zone"
                        else if z_score > 1.8 then "Grey Zone"
                        else "Distress Zone",
                        some "Z (Manufacturing)"⟩
                | _, _ => ⟨none, "Missing MVE or Liabilities", none⟩

/-- Modelled from the spec: the enhanced variant of the scoring engine. The
hosting application (src/app.py line 197) calls the engine as
`fd.calculate_altman_z_score(data, revenue_shock_pct=revenue_shock)` and
unpacks four values `(z_score, risk_cat, formula, contributions)`, but the
body of this enhanced variant is not under src/ (only its caller is); the
version of `calculate_altman_z_score` under src/ takes only `data` and
returns a triple. Following spec section 4.4: same validation order, formula
selection and thresholds as `calculate_altman_z_score`; before ratio
computation `total_revenue` is scaled by `(1 - shock_pct/100)`; on success the
fourth component maps each factor label to its weight-times-ratio term, with
X5 present only for the standard Z formula. -/
def calculate_altman_z_score_enhanced (data : Option FinancialData)
    (revenue_shock_pct : ℚ) : ScoreResult × Option (List (String × ℚ)) :=
  match data with
  | none => (⟨none, "No Data", none⟩, none)
  | some d =>
    let sector := d.sector.getD "Unknown"
    match d.total_assets with
    | none => (⟨none, "Missing Total Assets", none⟩, none)
    | some total_assets =>
      if total_assets = 0 then (⟨none, "Missing Total Assets", none⟩, none)
      else
        match d.working_capital with
        | none => (⟨none, "Missing Working Capital", none⟩, none)
        | some working_capital =>
          match d.retained_earnings with
          | none => (⟨none, "Missing Retained Earnings", none⟩, none)
          | some retained_earnings =>
            match d.ebit with
            | none => (⟨none, "Missing EBIT", none⟩, none)
            | some ebit =>
              let A := working_capital / total_assets
              let B := retained_earnings / total_assets
              let C := ebit / total_assets
              if NON_MANUFACTURING_SECTORS.contains sector then
                match d.book_value_equity, d.total_liabilities with
                | some bve, some total_liabilities =>
                  if total_liabilities = 0 then
                    (⟨none, "Missing Book Value of Equity or Liabilities", none⟩, none)
                  else
                    let D := bve / total_liabilities
                    let z_score := 6.56 * A + 3.26 * B + 6.72 * C + 1.05 * D
                    (⟨some z_score,
                      if z_score > 2.6 then "Safe Zone"
                      else if z_score > 1.1 then "Grey Zone"
                      else "Distress Zone",
                      some "Z\x27\x27 (Non-Manufacturing)"⟩,
                     some [("X1", 6.56 * A), ("X2", 3.26 * B),
                           ("X3", 6.72 * C), ("X4", 1.05 * D)])
                | _, _ =>
                    (⟨none, "Missing Book Value of Equity or Liabilities", none⟩, none)
              else
                match d.market_value_equity, d.total_liabilities with
                | some mve, some total_liabilities =>
                  if total_liabilities = 0 then
                    (⟨none, "Missing MVE or Liabilities", none⟩, none)
                  else
                    match d.total_revenue with
                    | none => (⟨none, "Missing Sales", none⟩, none)
                    | some sales =>
                      let shocked_sales := sales * (1 - revenue_shock_pct / 100)
                      let D := mve / total_liabilities
                      let E := shocked_sales / total_assets
                      let z_score := 1.2 * A + 1.4 * B + 3.3 * C + 0.6 * D + 1.0 * E
                      (⟨some z_score,
                        if z_score > 3.0 then "Safe Zone"
                        else if z_score > 1.8 then "Grey Zone"
                        else "Distress Zone",
                        some "Z (Manufacturing)"⟩,
                       some [("X1", 1.2 * A), ("X2", 1.4 * B), ("X3", 3.3 * C),
                             ("X4", 0.6 * D), ("X5", 1.0 * E)])
                | _, _ => (⟨none, "Missing MVE or Liabilities", none⟩, none)

/-- Modelled from the spec: calling the enhanced engine with the shock
parameter omitted, which per spec section 4.4 defaults it to 0. -/
def calculate_altman_z_score_enhanced_default
    (data : Option FinancialData) : ScoreResult × Option (List (String × ℚ)) :=
  calculate_altman_z_score_enhanced data 0

/-- Concrete scenario 1 of the spec: sector "Industrials", total_assets 100,
working_capital 20, retained_earnings 30, ebit 15, total_liabilities 40,
market_value_equity 200, total_revenue 150. -/
def scenario1 : FinancialData :=
  ⟨some "Industrials", some 100, some 20, some 30, some 15, some 40,
   some 200, none, some 150⟩

/-- Concrete scenario 2 of the spec: sector "Technology", total_assets 100,
working_capital 10, retained_earnings 5, ebit 8, total_liabilities 90,
book_value_equity 20. -/
def scenario2 : FinancialData :=
  ⟨some "Technology", some 100, some 10, some 5, some 8, some 90,
   none, some 20, none⟩

/-- The three-way classification chain used by both formulas, characterised:
it yields "Safe Zone" exactly when the first guard holds. -/
lemma zone_chain_safe_iff (c1 c2 : Prop) [Decidable c1] [Decidable c2] :
    ((if c1 then "Safe Zone" else if c2 then "Grey Zone" else "Distress Zone")
      = "Safe Zone") ↔ c1 := by
  by_cases h1 : c1 <;> by_cases h2 : c2 <;> simp [h1, h2]

/-- The classification chain yields "Grey Zone" exactly when the first guard
fails and the second holds. -/
lemma zone_chain_grey_iff (c1 c2 : Prop) [Decidable c1] [Decidable c2] :
    ((if c1 then "Safe Zone" else if c2 then "Grey Zone" else "Distress Zone")
      = "Grey Zone") ↔ (¬c1 ∧ c2) := by
  by_cases h1 : c1 <;> by_cases h2 : c2 <;> simp [h1, h2]

/-- The classification chain yields "Distress Zone" exactly when both guards
fail. -/
lemma zone_chain_distress_iff (c1 c2 : Prop) [Decidable c1] [Decidable c2] :
    ((if c1 then "Safe Zone" else if c2 then "Grey Zone" else "Distress Zone")
      = "Distress Zone") ↔ (¬c1 ∧ ¬c2) := by
  by_cases h1 : c1 <;> by_cases h2 : c2 <;> simp [h1, h2]

/-- C1: for every snapshot that passes required-field validation and whose
sector selects the standard Z formula, the engine returns
z = 1.2(WC/TA) + 1.4(RE/TA) + 3.3(EBIT/TA) + 0.6(MVE/TL) + 1.0(REV/TA),
with formula_used "Z (Manufacturing)", classified Safe Zone iff z > 3.0,
Grey Zone iff 1.8 < z <= 3.0, and Distress Zone otherwise. -/
theorem z_manufacturing_formula_and_zones (d : FinancialData)
    (ta wc re eb tl mve rev z : ℚ)
    (hta : d.total_assets = some ta) (hta0 : ta ≠ 0)
    (hwc : d.working_capital = some wc)
    (hre : d.retained_earnings = some re)
    (heb : d.ebit = some eb)
    (hsel : selects_z_double_prime d = false)
    (htl : d.total_liabilities = some tl) (htl0 : tl ≠ 0)
    (hmve : d.market_value_equity = some mve)
    (hrev : d.total_revenue = some rev)
    (hz : z = 1.2 * (wc / ta) + 1.4 * (re / ta) + 3.3 * (eb / ta)
            + 0.6 * (mve / tl) + 1.0 * (rev / ta)) :
    (calculate_altman_z_score (some d)).z_score = some z
    ∧ (calculate_altman_z_score (some d)).formula_used = some "Z (Manufacturing)"
    ∧ ((calculate_altman_z_score (some d)).risk_category = "Safe Zone" ↔ z > 3.0)
    ∧ ((calculate_altman_z_score (some d)).risk_category = "Grey Zone"
        ↔ (1.8 < z ∧ z ≤ 3.0))
    ∧ ((calculate_altman_z_score (some d)).risk_category = "Distress Zone"
        ↔ z ≤ 1.8) := by
  have hres : calculate_altman_z_score (some d) =
      ⟨some z,
        if z > 3.0 then "Safe Zone"
        else if z > 1.8 then "Grey Zone" else "Distress Zone",
        some "Z (Manufacturing)"⟩ := by
    obtain ⟨sec, ota, owc, ore, oeb, otl, omve, obve, orev⟩ := d
    dsimp only at hta hwc hre heb htl hmve hrev
    simp only [selects_z_double_prime] at hsel
    simp at hsel
    subst hta hwc hre heb htl hmve hrev hz
    simp [calculate_altman_z_score, hta0, htl0, hsel]
  rw [hres]
  refine ⟨rfl, rfl, ?_, ?_, ?_⟩
  · exact zone_chain_safe_iff _ _
  · rw [zone_chain_grey_iff]
    constructor
    · rintro ⟨h1, h2⟩; exact ⟨h2, by linarith [not_lt.mp h1]⟩
    · rintro ⟨h1, h2⟩; exact ⟨by push_neg; linarith, h1⟩
  · rw [zone_chain_distress_iff]
    constructor
    · rintro ⟨h1, h2⟩; linarith [not_lt.mp h2]
    · intro h; constructor <;> push_neg <;> linarith

theorem z_manufacturing_formula_and_zones_witness :
    (calculate_altman_z_score (some scenario1)).z_score = some (5.655 : ℚ)
    ∧ (calculate_altman_z_score (some scenario1)).risk_category = "Safe Zone"
    ∧ (calculate_altman_z_score (some scenario1)).formula_used
        = some "Z (Manufacturing)" := by
  have h := z_manufacturing_formula_and_zones scenario1
      100 20 30 15 40 200 150 5.655 rfl (by norm_num) rfl rfl rfl (by decide)
      rfl (by norm_num) rfl rfl (by norm_num)
  exact ⟨h.1, h.2.2.1.mpr (by norm_num), h.2.1⟩

/-- C2: for every snapshot that passes required-field validation and whose
sector selects the Z-double-prime formula, the engine returns
z = 6.56(WC/TA) + 3.26(RE/TA) + 6.72(EBIT/TA) + 1.05(BVE/TL), with
formula_used "Z\x27\x27 (Non-Manufacturing)", classified Safe Zone iff
z > 2.6, Grey Zone iff 1.1 < z <= 2.6, and Distress Zone otherwise. -/
theorem z_double_prime_formula_and_zones (d : FinancialData)
    (ta wc re eb tl bve z : ℚ)
    (hta : d.total_assets = some ta) (hta0 : ta ≠ 0)
    (hwc : d.working_capital = some wc)
    (hre : d.retained_earnings = some re)
    (heb : d.ebit = some eb)
    (hsel : selects_z_double_prime d = true)
    (hbve : d.book_value_equity = some bve)
    (htl : d.total_liabilities = some tl) (htl0 : tl ≠ 0)
    (hz : z = 6.56 * (wc / ta) + 3.26 * (re / ta) + 6.72 * (eb / ta)
            + 1.05 * (bve / tl)) :
    (calculate_altman_z_score (some d)).z_score = some z
    ∧ (calculate_altman_z_score (some d)).formula_used
        = some "Z\x27\x27 (Non-Manufacturing)"
    ∧ ((calculate_altman_z_score (some d)).risk_category = "Safe Zone" ↔ z > 2.6)
    ∧ ((calculate_altman_z_score (some d)).risk_category = "Grey Zone"
        ↔ (1.1 < z ∧ z ≤ 2.6))
    ∧ ((calculate_altman_z_score (some d)).risk_category = "Distress Zone"
        ↔ z ≤ 1.1) := by
  have hres : calculate_altman_z_score (some d) =
      ⟨some z,
        if z > 2.6 then "Safe Zone"
        else if z > 1.1 then "Grey Zone" else "Distress Zone",
        some "Z\x27\x27 (Non-Manufacturing)"⟩ := by
    obtain ⟨sec, ota, owc, ore, oeb, otl, omve, obve, orev⟩ := d
    dsimp only at hta hwc hre heb hbve htl
    simp only [selects_z_double_prime] at hsel
    simp at hsel
    subst hta hwc hre heb hbve htl hz
    simp [calculate_altman_z_score, hta0, htl0, hsel]
  rw [hres]
  refine ⟨rfl, rfl, ?_, ?_, ?_⟩
  · exact zone_chain_safe_iff _ _
  · rw [zone_chain_grey_iff]
    constructor
    · rintro ⟨h1, h2⟩; exact ⟨h2, by linarith [not_lt.mp h1]⟩
    · rintro ⟨h1, h2⟩; exact ⟨by push_neg; linarith, h1⟩
  · rw [zone_chain_distress_iff]
    constructor
    · rintro ⟨h1, h2⟩; linarith [not_lt.mp h2]
    · intro h; constructor <;> push_neg <;> linarith

theorem z_double_prime_formula_and_zones_witness :
    (calculate_altman_z_score (some scenario2)).z_score = some (23849 / 15000 : ℚ)
    ∧ (calculate_altman_z_score (some scenario2)).risk_category = "Grey Zone"
    ∧ (calculate_altman_z_score (some scenario2)).formula_used
        = some "Z\x27\x27 (Non-Manufacturing)"
    ∧ ((1.1 : ℚ) < 23849 / 15000 ∧ (23849 / 15000 : ℚ) ≤ 2.6) := by
  have h := z_double_prime_formula_and_zones scenario2
      100 10 5 8 90 20 (23849 / 15000) rfl (by norm_num) rfl rfl rfl (by decide)
      rfl rfl (by norm_num) (by norm_num)
  exact ⟨h.1, h.2.2.2.1.mpr (by norm_num), h.2.1, by norm_num, by norm_num⟩

/-- C3: the engine selects the Z-double-prime formula exactly when the
metadata sector is one of the seven non-manufacturing strings, and the
standard Z formula for every other sector, including an absent sector (read
as "Unknown"); whenever the result carries a formula name, it is the name of
the formula the selection chose. -/
theorem formula_selection_by_sector (d : FinancialData) :
    (selects_z_double_prime d = true ↔
      (d.sector.getD "Unknown" = "Technology"
       ∨ d.sector.getD "Unknown" = "Consumer Cyclical"
       ∨ d.sector.getD "Unknown" = "Consumer Defensive"
       ∨ d.sector.getD "Unknown" = "Communication Services"
       ∨ d.sector.getD "Unknown" = "Financial Services"
       ∨ d.sector.getD "Unknown" = "Healthcare"
       ∨ d.sector.getD "Unknown" = "Real Estate"))
    ∧ (d.sector = none → selects_z_double_prime d = false)
    ∧ (∀ f, (calculate_altman_z_score (some d)).formula_used = some f →
        f = (if selects_z_double_prime d then "Z\x27\x27 (Non-Manufacturing)"
             else "Z (Manufacturing)")) := by
  refine ⟨?_, ?_, ?_⟩
  · simp [selects_z_double_prime, NON_MANUFACTURING_SECTORS]
  · intro h
    simp only [selects_z_double_prime, h]
    decide
  · intro f hf
    unfold calculate_altman_z_score at hf
    dsimp only at hf
    iterate 12 (all_goals (try split at hf))
    all_goals simp_all [selects_z_double_prime]

theorem formula_selection_by_sector_witness :
    (selects_z_double_prime scenario2 = true
      ↔ (scenario2.sector.getD "Unknown" = "Technology"
       ∨ scenario2.sector.getD "Unknown" = "Consumer Cyclical"
       ∨ scenario2.sector.getD "Unknown" = "Consumer Defensive"
       ∨ scenario2.sector.getD "Unknown" = "Communication Services"
       ∨ scenario2.sector.getD "Unknown" = "Financial Services"
       ∨ scenario2.sector.getD "Unknown" = "Healthcare"
       ∨ scenario2.sector.getD "Unknown" = "Real Estate"))
    ∧ ("Z (Manufacturing)" : String) =
        (if selects_z_double_prime scenario1 then "Z\x27\x27 (Non-Manufacturing)"
         else "Z (Manufacturing)") :=
  ⟨(formula_selection_by_sector scenario2).1,
   (formula_selection_by_sector scenario1).2.2 "Z (Manufacturing)" (by decide)⟩

/-- C4: the required-field checks run in the fixed order total_assets
(present and non-zero), working_capital, retained_earnings, ebit, then the
formula-specific fields, short-circuiting on the first failure with its
distinct error string in place of a score; in particular a snapshot with
total_assets absent or zero reports "Missing Total Assets" regardless of the
other fields. The embedding is a total function, which models that the source
never lets an exception escape to the caller. -/
theorem validation_order_short_circuit (d : FinancialData) :
    ((d.total_assets = none ∨ d.total_assets = some 0) →
      calculate_altman_z_score (some d) = ⟨none, "Missing Total Assets", none⟩)
    ∧ (∀ ta, d.total_assets = some ta → ta ≠ 0 → d.working_capital = none →
      calculate_altman_z_score (some d) = ⟨none, "Missing Working Capital", none⟩)
    ∧ (∀ ta wc, d.total_assets = some ta → ta ≠ 0 →
      d.working_capital = some wc → d.retained_earnings = none →
      calculate_altman_z_score (some d)
        = ⟨none, "Missing Retained Earnings", none⟩)
    ∧ (∀ ta wc re, d.total_assets = some ta → ta ≠ 0 →
      d.working_capital = some wc → d.retained_earnings = some re →
      d.ebit = none →
      calculate_altman_z_score (some d) = ⟨none, "Missing EBIT", none⟩)
    ∧ (∀ ta wc re eb, d.total_assets = some ta → ta ≠ 0 →
      d.working_capital = some wc → d.retained_earnings = some re →
      d.ebit = some eb → selects_z_double_prime d = true →
      (d.book_value_equity = none ∨ d.total_liabilities = none
        ∨ d.total_liabilities = some 0) →
      calculate_altman_z_score (some d)
        = ⟨none, "Missing Book Value of Equity or Liabilities", none⟩)
    ∧ (∀ ta wc re eb, d.total_assets = some ta → ta ≠ 0 →
      d.working_capital = some wc → d.retained_earnings = some re →
      d.ebit = some eb → selects_z_double_prime d = false →
      (d.market_value_equity = none ∨ d.total_liabilities = none
        ∨ d.total_liabilities = some 0) →
      calculate_altman_z_score (some d)
        = ⟨none, "Missing MVE or Liabilities", none⟩)
    ∧ (∀ ta wc re eb tl mve, d.total_assets = some ta → ta ≠ 0 →
      d.working_capital = some wc → d.retained_earnings = some re →
      d.ebit = some eb → selects_z_double_prime d = false →
      d.market_value_equity = some mve → d.total_liabilities = some tl →
      tl ≠ 0 → d.total_revenue = none →
      calculate_altman_z_score (some d) = ⟨none, "Missing Sales", none⟩) := by
  obtain ⟨sec, ota, owc, ore, oeb, otl, omve, obve, orev⟩ := d
  refine ⟨?_, ?_, ?_, ?_, ?_, ?_, ?_⟩
  · rintro (h | h) <;> (dsimp only at h; subst h) <;>
      simp [calculate_altman_z_score]
  · intro ta hta hta0 hwc
    dsimp only at hta hwc
    subst hta; subst hwc
    simp [calculate_altman_z_score, hta0]
  · intro ta wc hta hta0 hwc hre
    dsimp only at hta hwc hre
    subst hta; subst hwc; subst hre
    simp [calculate_altman_z_score, hta0]
  · intro ta wc re hta hta0 hwc hre heb
    dsimp only at hta hwc hre heb
    subst hta; subst hwc; subst hre; subst heb
    simp [calculate_altman_z_score, hta0]
  · intro ta wc re eb hta hta0 hwc hre heb hsel hmiss
    dsimp only at hta hwc hre heb
    simp only [selects_z_double_prime] at hsel
    simp at hsel
    subst hta; subst hwc; subst hre; subst heb
    rcases hmiss with h | h | h <;> (dsimp only at h; subst h)
    · rcases otl with _ | tl <;>
        simp [calculate_altman_z_score, hta0, hsel]
    · rcases obve with _ | bve <;>
        simp [calculate_altman_z_score, hta0, hsel]
    · rcases obve with _ | bve <;>
        simp [calculate_altman_z_score, hta0, hsel]
  · intro ta wc re eb hta hta0 hwc hre heb hsel hmiss
    dsimp only at hta hwc hre heb
    simp only [selects_z_double_prime] at hsel
    simp at hsel
    subst hta; subst hwc; subst hre; subst heb
    rcases hmiss with h | h | h <;> (dsimp only at h; subst h)
    · rcases otl with _ | tl <;>
        simp [calculate_altman_z_score, hta0, hsel]
    · rcases omve with _ | mve <;>
        simp [calculate_altman_z_score, hta0, hsel]
    · rcases omve with _ | mve <;>
        simp [calculate_altman_z_score, hta0, hsel]
  · intro ta wc re eb tl mve hta hta0 hwc hre heb hsel hmve htl htl0 hrev
    dsimp only at hta hwc hre heb hmve htl hrev
    simp only [selects_z_double_prime] at hsel
    simp at hsel
    subst hta; subst hwc; subst hre; subst heb
    subst hmve; subst htl; subst hrev
    simp [calculate_altman_z_score, hta0, htl0, hsel]

theorem validation_order_short_circuit_witness :
    calculate_altman_z_score (some ⟨some "Industrials", none, none, none, none,
        none, none, none, none⟩) = ⟨none, "Missing Total Assets", none⟩
    ∧ calculate_altman_z_score (some ⟨some "Industrials", some 0, some 1,
        some 1, some 1, some 1, some 1, some 1, some 1⟩)
        = ⟨none, "Missing Total Assets", none⟩ :=
  ⟨(validation_order_short_circuit _).1 (Or.inl rfl),
   (validation_order_short_circuit _).1 (Or.inr rfl)⟩

/-- Exhaustive enumeration of the outcomes of the scoring engine on a
non-null input: one of the seven validation error triples, or a success
triple whose category is one of the three zones and whose formula name is one
of the two formula labels. -/
lemma calc_result_cases (d : FinancialData) :
    calculate_altman_z_score (some d) = ⟨none, "Missing Total Assets", none⟩
    ∨ calculate_altman_z_score (some d) = ⟨none, "Missing Working Capital", none⟩
    ∨ calculate_altman_z_score (some d) = ⟨none, "Missing Retained Earnings", none⟩
    ∨ calculate_altman_z_score (some d) = ⟨none, "Missing EBIT", none⟩
    ∨ calculate_altman_z_score (some d)
        = ⟨none, "Missing Book Value of Equity or Liabilities", none⟩
    ∨ calculate_altman_z_score (some d) = ⟨none, "Missing MVE or Liabilities", none⟩
    ∨ calculate_altman_z_score (some d) = ⟨none, "Missing Sales", none⟩
    ∨ (∃ z : ℚ, ∃ cat f : String,
        (cat = "Safe Zone" ∨ cat = "Grey Zone" ∨ cat = "Distress Zone")
        ∧ (f = "Z (Manufacturing)" ∨ f = "Z\x27\x27 (Non-Manufacturing)")
        ∧ calculate_altman_z_score (some d) = ⟨some z, cat, some f⟩) := by
  unfold calculate_altman_z_score
  dsimp only
  iterate 14 (all_goals (try split))
  all_goals simp

/-- C9: every result of the engine is in exactly one of two shapes — either
z_score is a number, risk_category is one of the three zone labels and
formula_used one of the two formula names, or z_score and formula_used are
both null and risk_category is one of the descriptive error strings
(including "No Data" for a null input); z_score is non-null exactly when
formula_used is non-null. -/
theorem score_result_shape_invariant (data : Option FinancialData) :
    ((calculate_altman_z_score data).z_score.isSome
      ↔ (calculate_altman_z_score data).formula_used.isSome)
    ∧ (∀ q, (calculate_altman_z_score data).z_score = some q →
        ((calculate_altman_z_score data).risk_category = "Safe Zone"
         ∨ (calculate_altman_z_score data).risk_category = "Grey Zone"
         ∨ (calculate_altman_z_score data).risk_category = "Distress Zone")
        ∧ ((calculate_altman_z_score data).formula_used
              = some "Z (Manufacturing)"
           ∨ (calculate_altman_z_score data).formula_used
              = some "Z\x27\x27 (Non-Manufacturing)"))
    ∧ ((calculate_altman_z_score data).z_score = none →
        (calculate_altman_z_score data).formula_used = none
        ∧ (calculate_altman_z_score data).risk_category ∈
            (["No Data", "Missing Total Assets", "Missing Working Capital",
              "Missing Retained Earnings", "Missing EBIT",
              "Missing Book Value of Equity or Liabilities",
              "Missing MVE or Liabilities", "Missing Sales"] : List String))
    ∧ (data = none → calculate_altman_z_score data = ⟨none, "No Data", none⟩) := by
  rcases data with _ | d
  · refine ⟨by simp [calculate_altman_z_score], ?_, ?_, fun _ => rfl⟩
    · intro q hq
      simp [calculate_altman_z_score] at hq
    · intro _
      simp [calculate_altman_z_score]
  · have h := calc_result_cases d
    refine ⟨?_, ?_, ?_, by simp⟩
    · rcases h with h | h | h | h | h | h | h | ⟨z, cat, f, hcat, hf, h⟩ <;>
        rw [h] <;> simp
    · intro q hq
      rcases h with h | h | h | h | h | h | h | ⟨z, cat, f, hcat, hf, h⟩ <;>
        rw [h] at hq <;> try simp at hq
      rw [h]
      refine ⟨hcat, ?_⟩
      rcases hf with hf | hf <;> simp [hf]
    · intro hq
      rcases h with h | h | h | h | h | h | h | ⟨z, cat, f, hcat, hf, h⟩ <;>
        rw [h] <;> try simp
      rw [h] at hq
      exact absurd hq (by simp)

theorem score_result_shape_invariant_witness :
    calculate_altman_z_score none = ⟨none, "No Data", none⟩ :=
  (score_result_shape_invariant none).2.2.2 rfl

/-- C5 (spec-modelled enhanced variant): the engine accepts an optional
revenue-shock percentage defaulting to 0; before ratio computation
total_revenue is scaled by (1 - shock/100), so a shock of 0 is identical to
omitting the parameter, a shock of 100 zeroes the E term of the Z formula,
and every shock leaves the Z-double-prime branch unchanged (revenue does not
enter that formula). -/
theorem revenue_shock_behavior :
    (∀ data : Option FinancialData,
      calculate_altman_z_score_enhanced_default data
        = calculate_altman_z_score_enhanced data 0)
    ∧ (∀ (d : FinancialData) (ta wc re eb tl mve rev shock : ℚ),
      d.total_assets = some ta → ta ≠ 0 →
      d.working_capital = some wc → d.retained_earnings = some re →
      d.ebit = some eb → selects_z_double_prime d = false →
      d.total_liabilities = some tl → tl ≠ 0 →
      d.market_value_equity = some mve → d.total_revenue = some rev →
      (calculate_altman_z_score_enhanced (some d) shock).1.z_score
        = some (1.2 * (wc / ta) + 1.4 * (re / ta) + 3.3 * (eb / ta)
            + 0.6 * (mve / tl) + 1.0 * ((rev * (1 - shock / 100)) / ta)))
    ∧ (∀ (d : FinancialData) (ta wc re eb tl mve rev : ℚ),
      d.total_assets = some ta → ta ≠ 0 →
      d.working_capital = some wc → d.retained_earnings = some re →
      d.ebit = some eb → selects_z_double_prime d = false →
      d.total_liabilities = some tl → tl ≠ 0 →
      d.market_value_equity = some mve → d.total_revenue = some rev →
      (calculate_altman_z_score_enhanced (some d) 100).1.z_score
        = some (1.2 * (wc / ta) + 1.4 * (re / ta) + 3.3 * (eb / ta)
            + 0.6 * (mve / tl)))
    ∧ (∀ (d : FinancialData) (s t : ℚ), selects_z_double_prime d = true →
      calculate_altman_z_score_enhanced (some d) s
        = calculate_altman_z_score_enhanced (some d) t) := by
  refine ⟨fun _ => rfl, ?_, ?_, ?_⟩
  · intro d ta wc re eb tl mve rev shock hta hta0 hwc hre heb hsel htl htl0
      hmve hrev
    obtain ⟨sec, ota, owc, ore, oeb, otl, omve, obve, orev⟩ := d
    dsimp only at hta hwc hre heb htl hmve hrev
    simp only [selects_z_double_prime] at hsel
    simp at hsel
    subst hta hwc hre heb htl hmve hrev
    simp [calculate_altman_z_score_enhanced, hta0, htl0, hsel]
  · intro d ta wc re eb tl mve rev hta hta0 hwc hre heb hsel htl htl0
      hmve hrev
    obtain ⟨sec, ota, owc, ore, oeb, otl, omve, obve, orev⟩ := d
    dsimp only at hta hwc hre heb htl hmve hrev
    simp only [selects_z_double_prime] at hsel
    simp at hsel
    subst hta hwc hre heb htl hmve hrev
    simp [calculate_altman_z_score_enhanced, hta0, htl0, hsel]
  · intro d s t hsel
    obtain ⟨sec, ota, owc, ore, oeb, otl, omve, obve, orev⟩ := d
    simp only [selects_z_double_prime] at hsel
    simp at hsel
    simp [calculate_altman_z_score_enhanced, hsel]

theorem revenue_shock_behavior_witness :
    (calculate_altman_z_score_enhanced (some scenario1) 50).1.z_score
        = some (4.905 : ℚ)
    ∧ calculate_altman_z_score_enhanced (some scenario2) 30
        = calculate_altman_z_score_enhanced (some scenario2) 70
    ∧ calculate_altman_z_score_enhanced_default (some scenario1)
        = calculate_altman_z_score_enhanced (some scenario1) 0 := by
  refine ⟨?_, ?_, ?_⟩
  · have h := revenue_shock_behavior.2.1 scenario1 100 20 30 15 40 200 150 50
      rfl (by norm_num) rfl rfl rfl (by decide) rfl (by norm_num) rfl rfl
    rw [h]
    norm_num
  · exact revenue_shock_behavior.2.2.2 scenario2 30 70 (by decide)
  · exact revenue_shock_behavior.1 (some scenario1)

/-- C6 (spec-modelled enhanced variant): on success the engine exposes the
per-factor attribution mapping, keyed by factor index: under the Z formula
X1 = 1.2A, X2 = 1.4B, X3 = 3.3C, X4 = 0.6D and X5 = 1.0E; under the
Z-double-prime formula X1 = 6.56A, X2 = 3.26B, X3 = 6.72C, X4 = 1.05D with
X5 omitted entirely. -/
theorem factor_attribution_terms :
    (∀ (d : FinancialData) (ta wc re eb tl mve rev shock : ℚ),
      d.total_assets = some ta → ta ≠ 0 →
      d.working_capital = some wc → d.retained_earnings = some re →
      d.ebit = some eb → selects_z_double_prime d = false →
      d.total_liabilities = some tl → tl ≠ 0 →
      d.market_value_equity = some mve → d.total_revenue = some rev →
      (calculate_altman_z_score_enhanced (some d) shock).2
        = some [("X1", 1.2 * (wc / ta)), ("X2", 1.4 * (re / ta)),
                ("X3", 3.3 * (eb / ta)), ("X4", 0.6 * (mve / tl)),
                ("X5", 1.0 * ((rev * (1 - shock / 100)) / ta))])
    ∧ (∀ (d : FinancialData) (ta wc re eb tl bve shock : ℚ),
      d.total_assets = some ta → ta ≠ 0 →
      d.working_capital = some wc → d.retained_earnings = some re →
      d.ebit = some eb → selects_z_double_prime d = true →
      d.book_value_equity = some bve →
      d.total_liabilities = some tl → tl ≠ 0 →
      ((calculate_altman_z_score_enhanced (some d) shock).2
        = some [("X1", 6.56 * (wc / ta)), ("X2", 3.26 * (re / ta)),
                ("X3", 6.72 * (eb / ta)), ("X4", 1.05 * (bve / tl))])
      ∧ (∀ l, (calculate_altman_z_score_enhanced (some d) shock).2 = some l →
          l.lookup "X5" = none)) := by
  constructor
  · intro d ta wc re eb tl mve rev shock hta hta0 hwc hre heb hsel htl htl0
      hmve hrev
    obtain ⟨sec, ota, owc, ore, oeb, otl, omve, obve, orev⟩ := d
    dsimp only at hta hwc hre heb htl hmve hrev
    simp only [selects_z_double_prime] at hsel
    simp at hsel
    subst hta hwc hre heb htl hmve hrev
    simp [calculate_altman_z_score_enhanced, hta0, htl0, hsel]
  · intro d ta wc re eb tl bve shock hta hta0 hwc hre heb hsel hbve htl htl0
    have hlist : (calculate_altman_z_score_enhanced (some d) shock).2
        = some [("X1", 6.56 * (wc / ta)), ("X2", 3.26 * (re / ta)),
                ("X3", 6.72 * (eb / ta)), ("X4", 1.05 * (bve / tl))] := by
      obtain ⟨sec, ota, owc, ore, oeb, otl, omve, obve, orev⟩ := d
      dsimp only at hta hwc hre heb hbve htl
      simp only [selects_z_double_prime] at hsel
      simp at hsel
      subst hta hwc hre heb hbve htl
      simp [calculate_altman_z_score_enhanced, hta0, htl0, hsel]
    refine ⟨hlist, ?_⟩
    intro l hl
    rw [hlist] at hl
    obtain rfl : l = _ := (Option.some.injEq _ _ ▸ hl).symm
    simp [List.lookup]

theorem factor_attribution_terms_witness :
    (calculate_altman_z_score_enhanced (some scenario1) 0).2
      = some [("X1", (0.24 : ℚ)), ("X2", 0.42), ("X3", 0.495),
              ("X4", 3.0), ("X5", 1.5)]
    ∧ (calculate_altman_z_score_enhanced (some scenario2) 0).2
      = some [("X1", (0.656 : ℚ)), ("X2", 0.163), ("X3", 0.5376),
              ("X4", 7 / 30)] := by
  constructor
  · have h := factor_attribution_terms.1 scenario1 100 20 30 15 40 200 150 0
      rfl (by norm_num) rfl rfl rfl (by decide) rfl (by norm_num) rfl rfl
    rw [h]
    norm_num
  · have h := (factor_attribution_terms.2 scenario2 100 10 5 8 90 20 0
      rfl (by norm_num) rfl rfl rfl (by decide) rfl rfl (by norm_num)).1
    rw [h]
    norm_num

/-- C7, refuted as stated: `normalize_units` does not never-raise for any
input. The handler catches only `TypeError` and `ValueError`, so an input
whose `float()` conversion fails with `OverflowError` (a Python int beyond
float range, e.g. 10^400) propagates that exception to the caller, modelled
here as an `Except.error` result. -/
theorem normalize_units_raises_on_overflow :
    normalize_units (some RawValue.overflow) "M" = Except.error "OverflowError" :=
  rfl

/-- C7, amended: `normalize_units` returns value/1e6 for the million scale and
value/1e9 for the billion scale for every numerically convertible non-null
input, and returns null when the input is null or its conversion raises
`TypeError` or `ValueError` — on those inputs it never raises; but a
conversion failing with an exception outside `(TypeError, ValueError)`, such
as `OverflowError` on an int beyond float range, propagates to the caller. -/
theorem normalize_units_contract (q : ℚ) (scale : String) :
    normalize_units (some (RawValue.num q)) "M" = Except.ok (some (q / 1000000))
    ∧ normalize_units (some (RawValue.num q)) "B"
        = Except.ok (some (q / 1000000000))
    ∧ normalize_units none scale = Except.ok none
    ∧ normalize_units (some RawValue.invalid) scale = Except.ok none
    ∧ normalize_units (some RawValue.overflow) scale
        = Except.error "OverflowError" := by
  refine ⟨rfl, ?_, rfl, rfl, rfl⟩
  simp [normalize_units]

/-- C10: the scale identifier is not validated — for every numerically
convertible value, any scale argument other than exactly "M" makes
`normalize_units` divide by 1e9, silently yielding the billions conversion
rather than null or an error. -/
theorem normalize_units_scale_fallthrough (q : ℚ) (scale : String)
    (h : scale ≠ "M") :
    normalize_units (some (RawValue.num q)) scale
      = Except.ok (some (q / 1000000000)) := by
  simp [normalize_units, h]

theorem normalize_units_scale_fallthrough_witness :
    ("m" : String) ≠ "M" ∧
      normalize_units (some (RawValue.num 3)) "m"
        = Except.ok (some (3 / 1000000000)) :=
  ⟨by decide, normalize_units_scale_fallthrough 3 "m" (by decide)⟩

/-- C8: `check_data_freshness` (a total function, so it never raises) always
returns a triple; with no balance-sheet data it returns stale with a "no data"
warning; otherwise the filing is stale exactly when its date lies more than
540 days before the current time, with a warning naming the filing date when
stale and null otherwise; a date-parse failure degrades to
(true, null, explanatory message). -/
theorem check_data_freshness_contract (bs : Option BalanceSheet) (now : Int) :
    (bs = none → check_data_freshness bs now =
        (true, none, some "No balance sheet data available."))
    ∧ (∀ b, bs = some b → b.columns = [] → check_data_freshness bs now =
        (true, none, some "No balance sheet data available."))
    ∧ (∀ b rest, bs = some b → b.columns = DateCell.unparseable :: rest →
        check_data_freshness bs now =
          (true, none, some "Could not determine data freshness: parse failure"))
    ∧ (∀ b day date_str rest, bs = some b →
        b.columns = DateCell.valid day date_str :: rest →
        (check_data_freshness bs now =
          (decide (day < now - 540), some date_str,
            if day < now - 540 then some (stale_warning date_str) else none))
        ∧ (day < now - 540 ↔ now - day > 540)) := by
  refine ⟨?_, ?_, ?_, ?_⟩
  · rintro rfl; rfl
  · rintro b rfl hcols
    simp [check_data_freshness, hcols]
  · rintro b rest rfl hcols
    simp [check_data_freshness, hcols]
  · rintro b day date_str rest rfl hcols
    refine ⟨?_, by omega⟩
    simp [check_data_freshness, hcols]

theorem check_data_freshness_contract_witness :
    check_data_freshness (some ⟨[DateCell.valid 0 "1970-01-01"]⟩) 1000 =
      (true, some "1970-01-01", some (stale_warning "1970-01-01")) ∧
    ((1000 : Int) - 0 > 540) := by
  have h := (check_data_freshness_contract
      (some ⟨[DateCell.valid 0 "1970-01-01"]⟩) 1000).2.2.2
      ⟨[DateCell.valid 0 "1970-01-01"]⟩ 0 "1970-01-01" [] rfl rfl
  refine ⟨?_, by norm_num⟩
  rw [h.1]
  norm_num

end CreditRisk
